import Mathlib

/-!
Shallow embedding of modules/video_coding/video_codec_initializer.cc (WebRTC).

The source file defines three operations on value records:
VideoEncoderConfigToVideoCodec (the configuration translator, the spec's
BuildCodecConfig), CreateBitrateAllocator (the allocator factory, the spec's
SelectAllocator) and SetupCodec (the entry coordinator).

The record types (VideoCodec, VideoStream, VideoEncoderConfig, SimulcastStream)
are declared in headers outside this snapshot; they are modelled from the spec's
data model (section 3) together with the field accesses visible in the source.
Machine-integer conversions performed by the source are explicit: a cast to
uint16_t is % 65536, a cast to unsigned char is % 256, unsigned int arithmetic
is % 4294967296; C++ int fields are Int, and the truncating division bps / 1000
agrees with Int division on the DCHECK-guarded nonnegative range.  External
collaborators (payload-name lookup, the default codec-settings providers, the
encoder-specific settings object and the SVC layer-geometry generator
GetSvcConfig) are parameters of the embedding, collected in Externals.
-/

/-- Codec type tags (enum VideoCodecType in the missing header, in source order;
the zero value is VP8). -/
inductive VideoCodecType
  | VP8 | VP9 | H264 | I420 | RED | ULPFEC | FlexFEC | Generic | Multiplex | Unknown
deriving DecidableEq, Repr

/-- Operating mode of the normalized codec configuration (enum VideoCodecMode). -/
inductive VideoCodecMode
  | kRealtimeVideo | kScreensharing
deriving DecidableEq, Repr

/-- Content classification carried by the encoder configuration
(VideoEncoderConfig::ContentType). -/
inductive ContentType
  | kRealtimeVideo | kScreen
deriving DecidableEq, Repr

/-- VP8 resilience modes (enum VP8ResilienceMode); kResilienceOff is the zero
value. -/
inductive VP8ResilienceMode
  | kResilienceOff | kResilientStream | kResilientFrames
deriving DecidableEq, Repr

/-- VP8 codec-specific settings (struct VideoCodecVP8), with the fields the
source and the spec's data model mention. -/
structure VideoCodecVP8 where
  numberOfTemporalLayers : Nat
  resilience : VP8ResilienceMode
  denoisingOn : Bool
  automaticResizeOn : Bool
  frameDroppingOn : Bool
  keyFrameInterval : Int
deriving DecidableEq, Repr

/-- VP9 codec-specific settings (struct VideoCodecVP9). -/
structure VideoCodecVP9 where
  numberOfTemporalLayers : Nat
  numberOfSpatialLayers : Nat
  resilienceOn : Bool
  flexibleMode : Bool
  denoisingOn : Bool
  frameDroppingOn : Bool
  keyFrameInterval : Int
  adaptiveQpMode : Bool
  automaticResizeOn : Bool
deriving DecidableEq, Repr

/-- H264 codec-specific settings (struct VideoCodecH264). -/
structure VideoCodecH264 where
  frameDroppingOn : Bool
  keyFrameInterval : Int
deriving DecidableEq, Repr

/-- Per-stream record inside the normalized configuration (struct
SimulcastStream; bitrates in kbps, dimensions uint16, layer count unsigned
char). -/
structure SimulcastStream where
  width : Nat
  height : Nat
  numberOfTemporalLayers : Nat
  maxBitrate : Nat
  targetBitrate : Nat
  minBitrate : Nat
  qpMax : Nat
  active : Bool
deriving DecidableEq, Repr

/-- Spatial-layer descriptor; the source era declares SpatialLayer as a typedef
of SimulcastStream, and the source assigns values of this type into
VideoCodec.spatialLayers. -/
abbrev SpatialLayer := SimulcastStream

/-- Timing-frame trigger thresholds, defaulted by the translator. -/
structure TimingFrameTriggerThresholds where
  delay_ms : Nat
  outlier_ratio_percent : Nat
deriving DecidableEq, Repr

/-- Fixed minimum encoder bitrate in kbps (kEncoderMinBitrateKbps in the
source). -/
def kEncoderMinBitrateKbps : Nat := 30

/-- Maximum number of simulcast streams (kMaxSimulcastStreams; the spec's fixed
maximum simulcast-stream cap). -/
def kMaxSimulcastStreams : Nat := 4

/-- Maximum number of spatial layers (kMaxSpatialLayers). -/
def kMaxSpatialLayers : Nat := 5

/-- Maximum number of temporal streams (kMaxTemporalStreams; the spec's
max-temporal-streams bound). -/
def kMaxTemporalStreams : Nat := 4

/-- Default timing-frames delay in milliseconds (kDefaultTimingFramesDelayMs). -/
def kDefaultTimingFramesDelayMs : Nat := 200

/-- Default outlier frame size percent (kDefaultOutlierFrameSizePercent). -/
def kDefaultOutlierFrameSizePercent : Nat := 500

/-- Normalized codec configuration (struct VideoCodec).  The C++ codec-specific
payload is a union written and read only under the matching codec-type tag; it
is modelled as three side-by-side components, observationally equivalent under
that access discipline. -/
structure VideoCodec where
  codecType : VideoCodecType
  mode : VideoCodecMode
  plType : Nat
  width : Nat
  height : Nat
  startBitrate : Nat
  maxBitrate : Nat
  minBitrate : Nat
  targetBitrate : Nat
  maxFramerate : Nat
  active : Bool
  qpMax : Nat
  numberOfSimulcastStreams : Nat
  simulcastStream : List SimulcastStream
  spatialLayers : List SpatialLayer
  timing_frame_thresholds : TimingFrameTriggerThresholds
  vp8 : VideoCodecVP8
  vp9 : VideoCodecVP9
  h264 : VideoCodecH264
deriving DecidableEq, Repr

/-- Zero value of the VP8 settings component, as left by the memset. -/
def zeroVP8 : VideoCodecVP8 :=
  { numberOfTemporalLayers := 0
    resilience := .kResilienceOff
    denoisingOn := false
    automaticResizeOn := false
    frameDroppingOn := false
    keyFrameInterval := 0 }

/-- Zero value of the VP9 settings component, as left by the memset. -/
def zeroVP9 : VideoCodecVP9 :=
  { numberOfTemporalLayers := 0
    numberOfSpatialLayers := 0
    resilienceOn := false
    flexibleMode := false
    denoisingOn := false
    frameDroppingOn := false
    keyFrameInterval := 0
    adaptiveQpMode := false
    automaticResizeOn := false }

/-- Zero value of the H264 settings component, as left by the memset. -/
def zeroH264 : VideoCodecH264 :=
  { frameDroppingOn := false, keyFrameInterval := 0 }

/-- Zero-filled per-stream record, as left by the memset. -/
def zeroSimulcastStream : SimulcastStream :=
  { width := 0
    height := 0
    numberOfTemporalLayers := 0
    maxBitrate := 0
    targetBitrate := 0
    minBitrate := 0
    qpMax := 0
    active := false }

/-- Zero-filled VideoCodec, as produced by the memset at the start of the
translator (the zero codec-type byte reads as VP8; it is overwritten at once). -/
def zeroVideoCodec : VideoCodec :=
  { codecType := .VP8
    mode := .kRealtimeVideo
    plType := 0
    width := 0
    height := 0
    startBitrate := 0
    maxBitrate := 0
    minBitrate := 0
    targetBitrate := 0
    maxFramerate := 0
    active := false
    qpMax := 0
    numberOfSimulcastStreams := 0
    simulcastStream := List.replicate kMaxSimulcastStreams zeroSimulcastStream
    spatialLayers := List.replicate kMaxSpatialLayers zeroSimulcastStream
    timing_frame_thresholds := { delay_ms := 0, outlier_ratio_percent := 0 }
    vp8 := zeroVP8
    vp9 := zeroVP9
    h264 := zeroH264 }

/-- Input per-stream descriptor (struct VideoStream; bitrates in bits per second
as C++ int, dimensions size_t, the optional temporal-layer count Option Nat). -/
structure VideoStream where
  width : Nat
  height : Nat
  max_framerate : Int
  min_bitrate_bps : Int
  target_bitrate_bps : Int
  max_bitrate_bps : Int
  max_qp : Int
  num_temporal_layers : Option Nat
  active : Bool
deriving DecidableEq, Repr

/-- Fallback stream value used to totalize the accesses streams[0] and
streams.back() that the source guards by a nonemptiness DCHECK. -/
def defaultVideoStream : VideoStream :=
  { width := 0
    height := 0
    max_framerate := 0
    min_bitrate_bps := 0
    target_bitrate_bps := 0
    max_bitrate_bps := 0
    max_qp := 0
    num_temporal_layers := none
    active := false }

/-- Codec-specific payload components produced by the encoder-specific settings
object.  Modelled from the spec: the object's fillCodecSpecificFields capability
populates codec-specific fields of the output record (its declaring header is
not part of this snapshot). -/
structure CodecSpecificFill where
  vp8 : VideoCodecVP8
  vp9 : VideoCodecVP9
  h264 : VideoCodecH264

/-- Input encoder configuration (VideoEncoderConfig), with the fields the source
reads.  The encoder-specific settings object is consumed only through its fill
capability, modelled as an optional function of the record under construction. -/
structure VideoEncoderConfig where
  codec_type : VideoCodecType
  content_type : ContentType
  min_transmit_bitrate_bps : Int
  encoder_specific_settings : Option (VideoCodec → CodecSpecificFill)
  spatial_layers : List SpatialLayer

/-- Legacy encoder settings hint; only its payload name is consumed, through the
external payload-name lookup. -/
structure EncoderSettings where
  payload_name : String

/-- External collaborators consumed through their interfaces (spec section 6). -/
structure Externals where
  PayloadStringToCodecType : String → VideoCodecType
  GetDefaultVp8Settings : VideoCodecVP8
  GetDefaultVp9Settings : VideoCodecVP9
  GetDefaultH264Settings : VideoCodecH264
  GetSvcConfig : Nat → Nat → Nat → Nat → List SpatialLayer

/-- Conversion from bits per second to kbps by the source's expression
bps / 1000 on C++ int; on the DCHECK-guarded nonnegative range this is exactly
truncating division. -/
def kbpsOf (bps : Int) : Nat := (bps / 1000).toNat

/-- Body of the per-stream loop (source lines 128-164): populate simulcast slot
i and fold the stream into the aggregates.  The minimum-bitrate fold casts both
operands to uint16_t, the maximum-bitrate fold is unsigned int addition, and
the quantizer cast int to unsigned int is the identity on the DCHECK-guarded
nonnegative range. -/
def applyStream (video_codec : VideoCodec) (i : Nat) (s : VideoStream) : VideoCodec :=
  let sim_stream : SimulcastStream :=
    { width := s.width % 65536
      height := s.height % 65536
      minBitrate := kbpsOf s.min_bitrate_bps
      targetBitrate := kbpsOf s.target_bitrate_bps
      maxBitrate := kbpsOf s.max_bitrate_bps
      qpMax := s.max_qp.toNat
      numberOfTemporalLayers := s.num_temporal_layers.getD 1 % 256
      active := s.active }
  { video_codec with
    simulcastStream := video_codec.simulcastStream.set i sim_stream
    width := max video_codec.width (s.width % 65536)
    height := max video_codec.height (s.height % 65536)
    minBitrate := min (video_codec.minBitrate % 65536) (kbpsOf s.min_bitrate_bps % 65536)
    maxBitrate := (video_codec.maxBitrate + kbpsOf s.max_bitrate_bps) % 4294967296
    qpMax := max video_codec.qpMax s.max_qp.toNat }

/-- The per-stream loop of the translator, starting at slot index i. -/
def applyStreamsFrom (video_codec : VideoCodec) (i : Nat) :
    List VideoStream → VideoCodec
  | [] => video_codec
  | s :: rest => applyStreamsFrom (applyStream video_codec i s) (i + 1) rest

/-- Copy loop for resolved spatial layers (source lines 237-239): write entry i
of the resolved list into slot i of the fixed-capacity output array. -/
def copyLayers (dst : List SpatialLayer) (i : Nat) :
    List SpatialLayer → List SpatialLayer
  | [] => dst
  | l :: rest => copyLayers (dst.set i l) (i + 1) rest

/-- Record state just before the per-stream loop (source lines 91-126): zeroed
record, codec type and mode, the screen-share target-bitrate seed, stream 0's
minimum bitrate with the 30 kbps floor, the active flag and the timing-frame
defaults. -/
def vcLoopInit (config : VideoEncoderConfig) (streams : List VideoStream)
    (codec_type : VideoCodecType) : VideoCodec :=
  let mode :=
    match config.content_type with
    | .kRealtimeVideo => VideoCodecMode.kRealtimeVideo
    | .kScreen => VideoCodecMode.kScreensharing
  let target0 :=
    match config.content_type, streams with
    | .kScreen, s0 :: _ =>
      if s0.num_temporal_layers = some 2 then kbpsOf s0.target_bitrate_bps
      else zeroVideoCodec.targetBitrate
    | _, _ => zeroVideoCodec.targetBitrate
  let minBitrate0 := kbpsOf (streams.headD defaultVideoStream).min_bitrate_bps
  { zeroVideoCodec with
    codecType := codec_type
    mode := mode
    targetBitrate := target0
    plType := 0
    numberOfSimulcastStreams := streams.length % 256
    minBitrate :=
      if minBitrate0 < kEncoderMinBitrateKbps then kEncoderMinBitrateKbps
      else minBitrate0
    active := streams.any fun s => s.active
    timing_frame_thresholds :=
      { delay_ms := kDefaultTimingFramesDelayMs
        outlier_ratio_percent := kDefaultOutlierFrameSizePercent } }

/-- Codec-agnostic translation up to the frame-rate assignment (source lines
91-176): the pre-loop state, the per-stream loop, the default bitrate cap when
the summed maximum is zero (note that maxFramerate is read here while still
zero), the 30 kbps floor of the maximum, and the frame rate from stream 0. -/
def vcCore (config : VideoEncoderConfig) (streams : List VideoStream)
    (codec_type : VideoCodecType) : VideoCodec :=
  let video_codec := applyStreamsFrom (vcLoopInit config streams codec_type) 0 streams
  let video_codec :=
    if video_codec.maxBitrate = 0 then
      { video_codec with
        maxBitrate :=
          video_codec.width * video_codec.height * video_codec.maxFramerate
            % 4294967296 / 1000 }
    else video_codec
  let video_codec :=
    if video_codec.maxBitrate < kEncoderMinBitrateKbps then
      { video_codec with maxBitrate := kEncoderMinBitrateKbps }
    else video_codec
  { video_codec with
    maxFramerate := (streams.headD defaultVideoStream).max_framerate.toNat }

/-- Codec-agnostic part of the translator (source lines 91-180): the core
translation followed by the delegated encoder-specific fill. -/
def vcBase (config : VideoEncoderConfig) (streams : List VideoStream)
    (codec_type : VideoCodecType) : VideoCodec :=
  let video_codec := vcCore config streams codec_type
  match config.encoder_specific_settings with
  | some fill =>
    let t := fill video_codec
    { video_codec with vp8 := t.vp8, vp9 := t.vp9, h264 := t.h264 }
  | none => video_codec

/-- Translation from encoder configuration and stream list to the normalized
codec configuration (VideoEncoderConfigToVideoCodec in the source; the spec's
BuildCodecConfig): the codec-agnostic base followed by the codec-specific
finalization switch of source lines 182-273. -/
def VideoEncoderConfigToVideoCodec (ext : Externals) (config : VideoEncoderConfig)
    (streams : List VideoStream) (codec_type : VideoCodecType)
    (nack_enabled : Bool) : VideoCodec :=
  let video_codec := vcBase config streams codec_type
  match video_codec.codecType with
  | .VP8 =>
    let video_codec :=
      if config.encoder_specific_settings.isNone then
        { video_codec with vp8 := ext.GetDefaultVp8Settings }
      else video_codec
    let video_codec :=
      { video_codec with
        vp8 :=
          { video_codec.vp8 with
            numberOfTemporalLayers :=
              (streams.getLastD defaultVideoStream).num_temporal_layers.getD
                video_codec.vp8.numberOfTemporalLayers % 256 } }
    if nack_enabled ∧ video_codec.vp8.numberOfTemporalLayers = 1 then
      { video_codec with
        vp8 := { video_codec.vp8 with resilience := .kResilienceOff } }
    else video_codec
  | .VP9 =>
    let video_codec :=
      if config.encoder_specific_settings.isNone then
        { video_codec with vp9 := ext.GetDefaultVp9Settings }
      else video_codec
    let video_codec :=
      { video_codec with
        vp9 :=
          { video_codec.vp9 with
            numberOfTemporalLayers :=
              (streams.getLastD defaultVideoStream).num_temporal_layers.getD
                video_codec.vp9.numberOfTemporalLayers % 256 } }
    let video_codec : VideoCodec :=
      if video_codec.mode = .kScreensharing ∧
          config.encoder_specific_settings.isSome then
        { video_codec with vp9 := { video_codec.vp9 with flexibleMode := true } }
      else
        let spatial_layers :=
          if config.spatial_layers ≠ [] then config.spatial_layers
          else
            ext.GetSvcConfig video_codec.width video_codec.height
              video_codec.vp9.numberOfSpatialLayers
              video_codec.vp9.numberOfTemporalLayers
        let video_codec :=
          { video_codec with
            spatialLayers := copyLayers video_codec.spatialLayers 0 spatial_layers }
        { video_codec with
          vp9 :=
            { video_codec.vp9 with
              numberOfSpatialLayers := spatial_layers.length % 256
              numberOfTemporalLayers :=
                (spatial_layers.getLastD zeroSimulcastStream).numberOfTemporalLayers
                  % 256 } }
    if nack_enabled ∧ video_codec.vp9.numberOfTemporalLayers = 1 ∧
        video_codec.vp9.numberOfSpatialLayers = 1 then
      { video_codec with
        vp9 := { video_codec.vp9 with resilienceOn := false } }
    else video_codec
  | .H264 =>
    if config.encoder_specific_settings.isNone then
      { video_codec with h264 := ext.GetDefaultH264Settings }
    else video_codec
  | _ => video_codec

/-- Bitrate-allocation strategies, each capturing the normalized configuration
it was constructed from. -/
inductive VideoBitrateAllocator
  | simulcastRateAllocator (codec : VideoCodec)
  | svcRateAllocator (codec : VideoCodec)
  | defaultVideoBitrateAllocator (codec : VideoCodec)
deriving DecidableEq, Repr

/-- Allocator factory (CreateBitrateAllocator in the source; the spec's
SelectAllocator): dispatch on the codec type of the normalized configuration. -/
def CreateBitrateAllocator (codec : VideoCodec) : VideoBitrateAllocator :=
  match codec.codecType with
  | .VP8 => .simulcastRateAllocator codec
  | .VP9 => .svcRateAllocator codec
  | _ => .defaultVideoBitrateAllocator codec

/-- Resolution of the codec type (source lines 36-42): the configuration's type
when set, otherwise derived from the legacy settings hint's payload name. -/
def resolveCodecType (ext : Externals) (config : VideoEncoderConfig)
    (settings : EncoderSettings) : VideoCodecType :=
  if config.codec_type = .Unknown then
    ext.PayloadStringToCodecType settings.payload_name
  else config.codec_type

/-- Entry coordinator with explicit recursion fuel.  The source's recursion has
depth at most one (the multiplex arm recurses with the codec type forced to
VP9); running out of fuel on a multiplex type stands for a failed recursive
call and never happens from the SetupCodec entry point. -/
def SetupCodecF (ext : Externals) : Nat → VideoEncoderConfig → EncoderSettings →
    List VideoStream → Bool → Option (VideoCodec × VideoBitrateAllocator)
  | 0, _, _, _, _ => none
  | fuel + 1, config, settings, streams, nack_enabled =>
    let codec_type := resolveCodecType ext config settings
    if codec_type = .Multiplex then
      let associated_config := { config with codec_type := VideoCodecType.VP9 }
      match SetupCodecF ext fuel associated_config settings streams nack_enabled with
      | none => none
      | some (codec, bitrate_allocator) =>
        some ({ codec with codecType := .Multiplex }, bitrate_allocator)
    else
      let codec :=
        VideoEncoderConfigToVideoCodec ext config streams codec_type nack_enabled
      some (codec, CreateBitrateAllocator codec)

/-- Entry coordinator (SetupCodec in the source): some on success, none on the
recoverable multiplex failure. -/
def SetupCodec (ext : Externals) (config : VideoEncoderConfig)
    (settings : EncoderSettings) (streams : List VideoStream)
    (nack_enabled : Bool) : Option (VideoCodec × VideoBitrateAllocator) :=
  SetupCodecF ext 2 config settings streams nack_enabled

/-- Per-stream preconditions (spec section 4.1, the per-stream DCHECKs of the
loop) together with the ranges of the C++ field types: bitrates, frame rate and
quantizer are int, and the dimensions must fit the uint16 fields of the output
record. -/
def StreamOk (s : VideoStream) : Prop :=
  0 < s.width ∧ s.width < 65536 ∧
  0 < s.height ∧ s.height < 65536 ∧
  0 < s.max_framerate ∧ s.max_framerate < 2147483648 ∧
  0 ≤ s.min_bitrate_bps ∧ s.min_bitrate_bps ≤ s.target_bitrate_bps ∧
  s.target_bitrate_bps ≤ s.max_bitrate_bps ∧ s.max_bitrate_bps < 2147483648 ∧
  0 ≤ s.max_qp ∧ s.max_qp < 2147483648

instance (s : VideoStream) : Decidable (StreamOk s) := by
  unfold StreamOk; infer_instance

/-- Well-formed translator input (spec section 4.1 preconditions): non-empty
stream list within the simulcast cap, nonnegative minimum transmit bitrate,
per-stream preconditions, and a uniform frame rate outside screen-share mode. -/
def WellFormed (config : VideoEncoderConfig) (streams : List VideoStream) : Prop :=
  streams ≠ [] ∧ streams.length ≤ kMaxSimulcastStreams ∧
  0 ≤ config.min_transmit_bitrate_bps ∧
  (∀ s ∈ streams, StreamOk s) ∧
  (config.content_type ≠ .kScreen →
    ∀ s ∈ streams, s.max_framerate = (streams.headD defaultVideoStream).max_framerate)

instance (config : VideoEncoderConfig) (streams : List VideoStream) :
    Decidable (WellFormed config streams) := by
  unfold WellFormed; infer_instance

/-- Maximum width across the input streams (spec-side aggregate). -/
def maxStreamWidth (streams : List VideoStream) : Nat :=
  streams.foldl (fun w s => max w s.width) 0

/-- Maximum height across the input streams (spec-side aggregate). -/
def maxStreamHeight (streams : List VideoStream) : Nat :=
  streams.foldl (fun h s => max h s.height) 0

/-- Maximum per-stream quantizer cap across the input streams (spec-side
aggregate; the C++ int value seen as unsigned, the identity on the
precondition range). -/
def maxStreamQp (streams : List VideoStream) : Nat :=
  streams.foldl (fun q s => max q s.max_qp.toNat) 0

/-- Sum over the streams of the per-stream maximum bitrate in kbps. -/
def sumMaxKbps (streams : List VideoStream) : Nat :=
  (streams.map fun s => kbpsOf s.max_bitrate_bps).sum

/-- VP8 settings immediately after defaulting or explicit settings (source
lines 184-186 for the defaulting, the fill of line 180 otherwise). -/
def vp8Prior (ext : Externals) (config : VideoEncoderConfig)
    (streams : List VideoStream) : VideoCodecVP8 :=
  match config.encoder_specific_settings with
  | none => ext.GetDefaultVp8Settings
  | some _ => (vcBase config streams .VP8).vp8

/-- VP8 temporal-layer count resolved from the last stream's explicit count,
falling back to the defaulted or explicitly set value (source lines 188-190). -/
def resolvedVp8TemporalLayers (ext : Externals) (config : VideoEncoderConfig)
    (streams : List VideoStream) : Nat :=
  (streams.getLastD defaultVideoStream).num_temporal_layers.getD
    (vp8Prior ext config streams).numberOfTemporalLayers % 256

/-- VP9 settings immediately after defaulting or explicit settings (source
lines 203-205 for the defaulting, the fill of line 180 otherwise). -/
def vp9Prior (ext : Externals) (config : VideoEncoderConfig)
    (streams : List VideoStream) : VideoCodecVP9 :=
  match config.encoder_specific_settings with
  | none => ext.GetDefaultVp9Settings
  | some _ => (vcBase config streams .VP9).vp9

/-- VP9 temporal-layer count after the last-stream override (source lines
207-209), before the spatial-layer resolution. -/
def resolvedVp9TemporalLayersPre (ext : Externals) (config : VideoEncoderConfig)
    (streams : List VideoStream) : Nat :=
  (streams.getLastD defaultVideoStream).num_temporal_layers.getD
    (vp9Prior ext config streams).numberOfTemporalLayers % 256

/-- The spatial-layer list requested from the external layer-geometry generator
(source lines 230-233): aggregate width and height with the already-resolved
spatial and temporal layer counts. -/
def vp9GeneratedLayers (ext : Externals) (config : VideoEncoderConfig)
    (streams : List VideoStream) : List SpatialLayer :=
  ext.GetSvcConfig (vcBase config streams .VP9).width
    (vcBase config streams .VP9).height
    (vp9Prior ext config streams).numberOfSpatialLayers
    (resolvedVp9TemporalLayersPre ext config streams)

/-- Concrete externals used by the closed witness and counterexample theorems:
nontrivial defaults and a two-layer geometry generator. -/
def extW : Externals :=
  { PayloadStringToCodecType := fun s =>
      if s = "VP9" then .VP9 else if s = "multiplex" then .Multiplex else .VP8
    GetDefaultVp8Settings :=
      { numberOfTemporalLayers := 1
        resilience := .kResilientStream
        denoisingOn := true
        automaticResizeOn := true
        frameDroppingOn := true
        keyFrameInterval := 3000 }
    GetDefaultVp9Settings :=
      { numberOfTemporalLayers := 1
        numberOfSpatialLayers := 1
        resilienceOn := true
        flexibleMode := false
        denoisingOn := true
        frameDroppingOn := true
        keyFrameInterval := 3000
        adaptiveQpMode := true
        automaticResizeOn := true }
    GetDefaultH264Settings := { frameDroppingOn := true, keyFrameInterval := 3000 }
    GetSvcConfig := fun w h _ tl =>
      [{ width := w / 2
         height := h / 2
         numberOfTemporalLayers := tl
         maxBitrate := 500
         targetBitrate := 400
         minBitrate := 100
         qpMax := 56
         active := true },
       { width := w
         height := h
         numberOfTemporalLayers := tl
         maxBitrate := 1200
         targetBitrate := 1000
         minBitrate := 300
         qpMax := 56
         active := true }] }

/-- Concrete realtime VP8 configuration with no encoder-specific settings and
no explicit spatial layers, used by witness theorems. -/
def cfgW : VideoEncoderConfig :=
  { codec_type := .VP8
    content_type := .kRealtimeVideo
    min_transmit_bitrate_bps := 0
    encoder_specific_settings := none
    spatial_layers := [] }

/-- Concrete stream descriptor used by witness theorems. -/
def mkStreamW (mn tg mx : Int) : VideoStream :=
  { width := 640
    height := 360
    max_framerate := 30
    min_bitrate_bps := mn
    target_bitrate_bps := tg
    max_bitrate_bps := mx
    max_qp := 56
    num_temporal_layers := none
    active := true }

/-- Stream whose minimum bitrate is 10 kbps, below the 30 kbps floor. -/
def streamLowMin : VideoStream := mkStreamW 10000 150000 200000

/-- Stream of the spec's zero-maximum scenario: 1280x720 at 30 fps with all
bitrate bounds zero. -/
def streamZeroMax : VideoStream :=
  { width := 1280
    height := 720
    max_framerate := 30
    min_bitrate_bps := 0
    target_bitrate_bps := 0
    max_bitrate_bps := 0
    max_qp := 56
    num_temporal_layers := none
    active := true }

/-- Small zero-maximum stream used by the C10 witness. -/
def streamZeroMaxSmall : VideoStream :=
  { width := 320
    height := 180
    max_framerate := 15
    min_bitrate_bps := 0
    target_bitrate_bps := 0
    max_bitrate_bps := 0
    max_qp := 40
    num_temporal_layers := none
    active := true }

/-- Stream with an explicit single temporal layer, used by the C3 witness. -/
def streamTL1 : VideoStream :=
  { mkStreamW 100000 150000 200000 with num_temporal_layers := some 1 }

/-- Larger 1280x720 stream used by the aggregate-maxima witness. -/
def streamBig : VideoStream :=
  { width := 1280
    height := 720
    max_framerate := 30
    min_bitrate_bps := 300000
    target_bitrate_bps := 450000
    max_bitrate_bps := 600000
    max_qp := 63
    num_temporal_layers := none
    active := true }

/-- Legacy settings hint value for witness theorems; never consulted when the
configuration's codec type is set. -/
def settingsW : EncoderSettings := { payload_name := "VP8" }

/-- Projections of the pre-loop state that reduce definitionally. -/
theorem vcLoopInit_codecType (config : VideoEncoderConfig) (streams : List VideoStream)
    (ct : VideoCodecType) : (vcLoopInit config streams ct).codecType = ct := rfl

theorem vcLoopInit_width (config : VideoEncoderConfig) (streams : List VideoStream)
    (ct : VideoCodecType) : (vcLoopInit config streams ct).width = 0 := rfl

theorem vcLoopInit_height (config : VideoEncoderConfig) (streams : List VideoStream)
    (ct : VideoCodecType) : (vcLoopInit config streams ct).height = 0 := rfl

theorem vcLoopInit_qpMax (config : VideoEncoderConfig) (streams : List VideoStream)
    (ct : VideoCodecType) : (vcLoopInit config streams ct).qpMax = 0 := rfl

theorem vcLoopInit_maxFramerate (config : VideoEncoderConfig) (streams : List VideoStream)
    (ct : VideoCodecType) : (vcLoopInit config streams ct).maxFramerate = 0 := rfl

theorem vcLoopInit_maxBitrate (config : VideoEncoderConfig) (streams : List VideoStream)
    (ct : VideoCodecType) : (vcLoopInit config streams ct).maxBitrate = 0 := rfl

theorem vcLoopInit_minBitrate (config : VideoEncoderConfig) (streams : List VideoStream)
    (ct : VideoCodecType) :
    (vcLoopInit config streams ct).minBitrate =
      (if kbpsOf (streams.headD defaultVideoStream).min_bitrate_bps < kEncoderMinBitrateKbps
       then kEncoderMinBitrateKbps
       else kbpsOf (streams.headD defaultVideoStream).min_bitrate_bps) := rfl

theorem vcLoopInit_vp8 (config : VideoEncoderConfig) (streams : List VideoStream)
    (ct : VideoCodecType) : (vcLoopInit config streams ct).vp8 = zeroVP8 := rfl

theorem vcLoopInit_vp9 (config : VideoEncoderConfig) (streams : List VideoStream)
    (ct : VideoCodecType) : (vcLoopInit config streams ct).vp9 = zeroVP9 := rfl

theorem vcLoopInit_spatialLayers (config : VideoEncoderConfig) (streams : List VideoStream)
    (ct : VideoCodecType) :
    (vcLoopInit config streams ct).spatialLayers =
      List.replicate kMaxSpatialLayers zeroSimulcastStream := rfl

theorem vcLoopInit_mode (config : VideoEncoderConfig) (streams : List VideoStream)
    (ct : VideoCodecType) :
    (vcLoopInit config streams ct).mode =
      (match config.content_type with
       | .kRealtimeVideo => VideoCodecMode.kRealtimeVideo
       | .kScreen => VideoCodecMode.kScreensharing) := rfl

theorem applyStreamsFrom_codecType (streams : List VideoStream) :
    ∀ c i, (applyStreamsFrom c i streams).codecType = c.codecType := by
  induction streams with
  | nil => intro c i; rfl
  | cons s r ih => intro c i; exact ih _ _

theorem applyStreamsFrom_mode (streams : List VideoStream) :
    ∀ c i, (applyStreamsFrom c i streams).mode = c.mode := by
  induction streams with
  | nil => intro c i; rfl
  | cons s r ih => intro c i; exact ih _ _

theorem applyStreamsFrom_vp8 (streams : List VideoStream) :
    ∀ c i, (applyStreamsFrom c i streams).vp8 = c.vp8 := by
  induction streams with
  | nil => intro c i; rfl
  | cons s r ih => intro c i; exact ih _ _

theorem applyStreamsFrom_vp9 (streams : List VideoStream) :
    ∀ c i, (applyStreamsFrom c i streams).vp9 = c.vp9 := by
  induction streams with
  | nil => intro c i; rfl
  | cons s r ih => intro c i; exact ih _ _

theorem applyStreamsFrom_spatialLayers (streams : List VideoStream) :
    ∀ c i, (applyStreamsFrom c i streams).spatialLayers = c.spatialLayers := by
  induction streams with
  | nil => intro c i; rfl
  | cons s r ih => intro c i; exact ih _ _

theorem applyStreamsFrom_maxFramerate (streams : List VideoStream) :
    ∀ c i, (applyStreamsFrom c i streams).maxFramerate = c.maxFramerate := by
  induction streams with
  | nil => intro c i; rfl
  | cons s r ih => intro c i; exact ih _ _

theorem applyStreamsFrom_minBitrate_le_self (streams : List VideoStream) :
    ∀ c i, (applyStreamsFrom c i streams).minBitrate ≤ c.minBitrate := by
  induction streams with
  | nil => intro c i; exact Nat.le_refl _
  | cons s r ih =>
    intro c i
    refine Nat.le_trans (ih (applyStream c i s) (i + 1)) ?_
    show min (c.minBitrate % 65536) (kbpsOf s.min_bitrate_bps % 65536) ≤ c.minBitrate
    exact Nat.le_trans (Nat.min_le_left _ _) (Nat.mod_le _ _)

theorem applyStreamsFrom_minBitrate_le_mem (streams : List VideoStream) :
    ∀ c i s, s ∈ streams →
      (applyStreamsFrom c i streams).minBitrate ≤ kbpsOf s.min_bitrate_bps := by
  induction streams with
  | nil => intro c i s h; cases h
  | cons t r ih =>
    intro c i s h
    cases h with
    | head =>
      refine Nat.le_trans (applyStreamsFrom_minBitrate_le_self r (applyStream c i t) (i + 1)) ?_
      show min (c.minBitrate % 65536) (kbpsOf t.min_bitrate_bps % 65536) ≤
        kbpsOf t.min_bitrate_bps
      exact Nat.le_trans (Nat.min_le_right _ _) (Nat.mod_le _ _)
    | tail _ hm => exact ih (applyStream c i t) (i + 1) s hm

theorem applyStreamsFrom_minBitrate_ge (streams : List VideoStream) :
    ∀ c i, kEncoderMinBitrateKbps ≤ c.minBitrate → c.minBitrate < 65536 →
      (∀ s ∈ streams, kEncoderMinBitrateKbps ≤ kbpsOf s.min_bitrate_bps ∧
        kbpsOf s.min_bitrate_bps < 65536) →
      kEncoderMinBitrateKbps ≤ (applyStreamsFrom c i streams).minBitrate ∧
        (applyStreamsFrom c i streams).minBitrate < 65536 := by
  induction streams with
  | nil => intro c i h1 h2 _; exact ⟨h1, h2⟩
  | cons t r ih =>
    intro c i h1 h2 hs
    have ht := hs t (List.mem_cons_self t r)
    have e : (applyStream c i t).minBitrate =
        min (c.minBitrate % 65536) (kbpsOf t.min_bitrate_bps % 65536) := rfl
    have h1' : kEncoderMinBitrateKbps ≤ (applyStream c i t).minBitrate := by
      rw [e, Nat.mod_eq_of_lt h2, Nat.mod_eq_of_lt ht.2]
      exact le_min h1 ht.1
    have h2' : (applyStream c i t).minBitrate < 65536 := by
      rw [e, Nat.mod_eq_of_lt h2, Nat.mod_eq_of_lt ht.2]
      exact lt_of_le_of_lt (Nat.min_le_left _ _) h2
    exact ih (applyStream c i t) (i + 1) h1' h2'
      (fun s hm => hs s (List.mem_cons_of_mem t hm))

theorem applyStreamsFrom_maxBitrate (streams : List VideoStream) :
    ∀ c i, c.maxBitrate + sumMaxKbps streams < 4294967296 →
      (applyStreamsFrom c i streams).maxBitrate = c.maxBitrate + sumMaxKbps streams := by
  induction streams with
  | nil => intro c i _; simp [applyStreamsFrom, sumMaxKbps]
  | cons t r ih =>
    intro c i hb
    have hsum : sumMaxKbps (t :: r) = kbpsOf t.max_bitrate_bps + sumMaxKbps r := by
      simp [sumMaxKbps]
    have e : (applyStream c i t).maxBitrate =
        (c.maxBitrate + kbpsOf t.max_bitrate_bps) % 4294967296 := rfl
    have hlt : c.maxBitrate + kbpsOf t.max_bitrate_bps < 4294967296 := by
      rw [hsum] at hb; omega
    have e2 : (applyStream c i t).maxBitrate = c.maxBitrate + kbpsOf t.max_bitrate_bps := by
      rw [e, Nat.mod_eq_of_lt hlt]
    have hb2 : (applyStream c i t).maxBitrate + sumMaxKbps r < 4294967296 := by
      rw [e2]; rw [hsum] at hb; omega
    have := ih (applyStream c i t) (i + 1) hb2
    rw [show applyStreamsFrom c i (t :: r) = applyStreamsFrom (applyStream c i t) (i + 1) r
      from rfl, this, e2, hsum]
    omega

theorem applyStreamsFrom_width_bounded (streams : List VideoStream) :
    ∀ c i, (∀ s ∈ streams, s.width < 65536) →
      (applyStreamsFrom c i streams).width =
        streams.foldl (fun w s => max w s.width) c.width := by
  induction streams with
  | nil => intro c i _; rfl
  | cons t r ih =>
    intro c i hs
    have e : (applyStream c i t).width = max c.width (t.width % 65536) := rfl
    have ht := hs t (List.mem_cons_self t r)
    rw [show applyStreamsFrom c i (t :: r) = applyStreamsFrom (applyStream c i t) (i + 1) r
      from rfl, ih (applyStream c i t) (i + 1) (fun s hm => hs s (List.mem_cons_of_mem t hm)),
      List.foldl_cons, e, Nat.mod_eq_of_lt ht]

theorem applyStreamsFrom_height_bounded (streams : List VideoStream) :
    ∀ c i, (∀ s ∈ streams, s.height < 65536) →
      (applyStreamsFrom c i streams).height =
        streams.foldl (fun h s => max h s.height) c.height := by
  induction streams with
  | nil => intro c i _; rfl
  | cons t r ih =>
    intro c i hs
    have e : (applyStream c i t).height = max c.height (t.height % 65536) := rfl
    have ht := hs t (List.mem_cons_self t r)
    rw [show applyStreamsFrom c i (t :: r) = applyStreamsFrom (applyStream c i t) (i + 1) r
      from rfl, ih (applyStream c i t) (i + 1) (fun s hm => hs s (List.mem_cons_of_mem t hm)),
      List.foldl_cons, e, Nat.mod_eq_of_lt ht]

theorem applyStreamsFrom_qpMax (streams : List VideoStream) :
    ∀ c i, (applyStreamsFrom c i streams).qpMax =
      streams.foldl (fun q s => max q s.max_qp.toNat) c.qpMax := by
  induction streams with
  | nil => intro c i; rfl
  | cons t r ih =>
    intro c i
    rw [show applyStreamsFrom c i (t :: r) = applyStreamsFrom (applyStream c i t) (i + 1) r
      from rfl, ih (applyStream c i t) (i + 1), List.foldl_cons]
    rfl

theorem vcCore_maxFramerate (config : VideoEncoderConfig) (streams : List VideoStream)
    (ct : VideoCodecType) :
    (vcCore config streams ct).maxFramerate =
      (streams.headD defaultVideoStream).max_framerate.toNat := rfl

theorem vcCore_codecType (config : VideoEncoderConfig) (streams : List VideoStream)
    (ct : VideoCodecType) : (vcCore config streams ct).codecType = ct := by
  unfold vcCore
  dsimp only
  split <;> split <;>
    simp only [applyStreamsFrom_codecType, vcLoopInit_codecType]

theorem vcCore_mode (config : VideoEncoderConfig) (streams : List VideoStream)
    (ct : VideoCodecType) :
    (vcCore config streams ct).mode = (vcLoopInit config streams ct).mode := by
  unfold vcCore
  dsimp only
  split <;> split <;> simp only [applyStreamsFrom_mode]

theorem vcCore_vp8 (config : VideoEncoderConfig) (streams : List VideoStream)
    (ct : VideoCodecType) : (vcCore config streams ct).vp8 = zeroVP8 := by
  unfold vcCore
  dsimp only
  split <;> split <;> simp only [applyStreamsFrom_vp8, vcLoopInit_vp8]

theorem vcCore_vp9 (config : VideoEncoderConfig) (streams : List VideoStream)
    (ct : VideoCodecType) : (vcCore config streams ct).vp9 = zeroVP9 := by
  unfold vcCore
  dsimp only
  split <;> split <;> simp only [applyStreamsFrom_vp9, vcLoopInit_vp9]

theorem vcCore_spatialLayers (config : VideoEncoderConfig) (streams : List VideoStream)
    (ct : VideoCodecType) :
    (vcCore config streams ct).spatialLayers =
      List.replicate kMaxSpatialLayers zeroSimulcastStream := by
  unfold vcCore
  dsimp only
  split <;> split <;> simp only [applyStreamsFrom_spatialLayers, vcLoopInit_spatialLayers]

theorem vcCore_width (config : VideoEncoderConfig) (streams : List VideoStream)
    (ct : VideoCodecType) :
    (vcCore config streams ct).width =
      (applyStreamsFrom (vcLoopInit config streams ct) 0 streams).width := by
  unfold vcCore
  dsimp only
  split <;> split <;> rfl

theorem vcCore_height (config : VideoEncoderConfig) (streams : List VideoStream)
    (ct : VideoCodecType) :
    (vcCore config streams ct).height =
      (applyStreamsFrom (vcLoopInit config streams ct) 0 streams).height := by
  unfold vcCore
  dsimp only
  split <;> split <;> rfl

theorem vcCore_qpMax (config : VideoEncoderConfig) (streams : List VideoStream)
    (ct : VideoCodecType) :
    (vcCore config streams ct).qpMax =
      (applyStreamsFrom (vcLoopInit config streams ct) 0 streams).qpMax := by
  unfold vcCore
  dsimp only
  split <;> split <;> rfl

theorem vcCore_minBitrate (config : VideoEncoderConfig) (streams : List VideoStream)
    (ct : VideoCodecType) :
    (vcCore config streams ct).minBitrate =
      (applyStreamsFrom (vcLoopInit config streams ct) 0 streams).minBitrate := by
  unfold vcCore
  dsimp only
  split <;> split <;> rfl

theorem vcBase_codecType (config : VideoEncoderConfig) (streams : List VideoStream)
    (ct : VideoCodecType) : (vcBase config streams ct).codecType = ct := by
  unfold vcBase
  cases config.encoder_specific_settings <;> simp only [] <;> exact vcCore_codecType _ _ _

theorem vcBase_mode (config : VideoEncoderConfig) (streams : List VideoStream)
    (ct : VideoCodecType) :
    (vcBase config streams ct).mode = (vcLoopInit config streams ct).mode := by
  unfold vcBase
  cases config.encoder_specific_settings <;> simp only [] <;> exact vcCore_mode _ _ _

theorem vcBase_minBitrate (config : VideoEncoderConfig) (streams : List VideoStream)
    (ct : VideoCodecType) :
    (vcBase config streams ct).minBitrate = (vcCore config streams ct).minBitrate := by
  unfold vcBase
  cases config.encoder_specific_settings <;> rfl

theorem vcBase_maxBitrate (config : VideoEncoderConfig) (streams : List VideoStream)
    (ct : VideoCodecType) :
    (vcBase config streams ct).maxBitrate = (vcCore config streams ct).maxBitrate := by
  unfold vcBase
  cases config.encoder_specific_settings <;> rfl

theorem vcBase_width (config : VideoEncoderConfig) (streams : List VideoStream)
    (ct : VideoCodecType) :
    (vcBase config streams ct).width = (vcCore config streams ct).width := by
  unfold vcBase
  cases config.encoder_specific_settings <;> rfl

theorem vcBase_height (config : VideoEncoderConfig) (streams : List VideoStream)
    (ct : VideoCodecType) :
    (vcBase config streams ct).height = (vcCore config streams ct).height := by
  unfold vcBase
  cases config.encoder_specific_settings <;> rfl

theorem vcBase_qpMax (config : VideoEncoderConfig) (streams : List VideoStream)
    (ct : VideoCodecType) :
    (vcBase config streams ct).qpMax = (vcCore config streams ct).qpMax := by
  unfold vcBase
  cases config.encoder_specific_settings <;> rfl

theorem vcBase_maxFramerate (config : VideoEncoderConfig) (streams : List VideoStream)
    (ct : VideoCodecType) :
    (vcBase config streams ct).maxFramerate = (vcCore config streams ct).maxFramerate := by
  unfold vcBase
  cases config.encoder_specific_settings <;> rfl

theorem vcBase_spatialLayers (config : VideoEncoderConfig) (streams : List VideoStream)
    (ct : VideoCodecType) :
    (vcBase config streams ct).spatialLayers =
      List.replicate kMaxSpatialLayers zeroSimulcastStream := by
  unfold vcBase
  cases config.encoder_specific_settings <;> simp only [] <;>
    exact vcCore_spatialLayers _ _ _

theorem translator_minBitrate (ext : Externals) (config : VideoEncoderConfig)
    (streams : List VideoStream) (ct : VideoCodecType) (nk : Bool) :
    (VideoEncoderConfigToVideoCodec ext config streams ct nk).minBitrate =
      (vcCore config streams ct).minBitrate := by
  unfold VideoEncoderConfigToVideoCodec
  dsimp only
  split <;> (repeat' split) <;> exact vcBase_minBitrate _ _ _

theorem translator_maxBitrate (ext : Externals) (config : VideoEncoderConfig)
    (streams : List VideoStream) (ct : VideoCodecType) (nk : Bool) :
    (VideoEncoderConfigToVideoCodec ext config streams ct nk).maxBitrate =
      (vcCore config streams ct).maxBitrate := by
  unfold VideoEncoderConfigToVideoCodec
  dsimp only
  split <;> (repeat' split) <;> exact vcBase_maxBitrate _ _ _

theorem translator_width (ext : Externals) (config : VideoEncoderConfig)
    (streams : List VideoStream) (ct : VideoCodecType) (nk : Bool) :
    (VideoEncoderConfigToVideoCodec ext config streams ct nk).width =
      (vcCore config streams ct).width := by
  unfold VideoEncoderConfigToVideoCodec
  dsimp only
  split <;> (repeat' split) <;> exact vcBase_width _ _ _

theorem translator_height (ext : Externals) (config : VideoEncoderConfig)
    (streams : List VideoStream) (ct : VideoCodecType) (nk : Bool) :
    (VideoEncoderConfigToVideoCodec ext config streams ct nk).height =
      (vcCore config streams ct).height := by
  unfold VideoEncoderConfigToVideoCodec
  dsimp only
  split <;> (repeat' split) <;> exact vcBase_height _ _ _

theorem translator_qpMax (ext : Externals) (config : VideoEncoderConfig)
    (streams : List VideoStream) (ct : VideoCodecType) (nk : Bool) :
    (VideoEncoderConfigToVideoCodec ext config streams ct nk).qpMax =
      (vcCore config streams ct).qpMax := by
  unfold VideoEncoderConfigToVideoCodec
  dsimp only
  split <;> (repeat' split) <;> exact vcBase_qpMax _ _ _

theorem translator_codecType (ext : Externals) (config : VideoEncoderConfig)
    (streams : List VideoStream) (ct : VideoCodecType) (nk : Bool) :
    (VideoEncoderConfigToVideoCodec ext config streams ct nk).codecType = ct := by
  unfold VideoEncoderConfigToVideoCodec
  dsimp only
  split <;> (repeat' split) <;> exact vcBase_codecType _ _ _

theorem copyLayers_length : ∀ (src dst : List SpatialLayer) (j : Nat),
    (copyLayers dst j src).length = dst.length := by
  intro src
  induction src with
  | nil => intro dst j; rfl
  | cons l r ih =>
    intro dst j
    rw [show copyLayers dst j (l :: r) = copyLayers (dst.set j l) (j + 1) r from rfl,
      ih, List.length_set]

theorem copyLayers_getElem?_lt : ∀ (src dst : List SpatialLayer) (j k : Nat), k < j →
    (copyLayers dst j src)[k]? = dst[k]? := by
  intro src
  induction src with
  | nil => intro dst j k _; rfl
  | cons l r ih =>
    intro dst j k hk
    rw [show copyLayers dst j (l :: r) = copyLayers (dst.set j l) (j + 1) r from rfl,
      ih (dst.set j l) (j + 1) k (Nat.lt_succ_of_lt hk),
      List.getElem?_set_ne (Nat.ne_of_gt hk)]

theorem copyLayers_getElem? : ∀ (src dst : List SpatialLayer) (j : Nat),
    j + src.length ≤ dst.length → ∀ i, i < src.length →
      (copyLayers dst j src)[j + i]? = src[i]? := by
  intro src
  induction src with
  | nil => intro dst j _ i hi; cases hi
  | cons l r ih =>
    intro dst j hb i hi
    cases i with
    | zero =>
      rw [show copyLayers dst j (l :: r) = copyLayers (dst.set j l) (j + 1) r from rfl]
      have hj : j < dst.length := by simp [List.length_cons] at hb; omega
      rw [copyLayers_getElem?_lt r (dst.set j l) (j + 1) (j + 0) (by omega)]
      rw [show j + 0 = j from rfl]
      rw [List.getElem?_set_eq_of_lt l hj]
      exact List.getElem?_cons_zero.symm
    | succ k =>
      rw [show copyLayers dst j (l :: r) = copyLayers (dst.set j l) (j + 1) r from rfl]
      rw [show j + (k + 1) = (j + 1) + k by omega]
      rw [ih (dst.set j l) (j + 1)
        (by rw [List.length_set]; simp [List.length_cons] at hb; omega) k
        (by simp [List.length_cons] at hi; omega)]
      exact List.getElem?_cons_succ.symm

theorem kbpsOf_le_kbpsOf {a b : Int} (h : a ≤ b) : kbpsOf a ≤ kbpsOf b := by
  unfold kbpsOf
  exact Int.toNat_le_toNat (Int.ediv_le_ediv (by norm_num) h)

theorem kbpsOf_le_2147483 {a : Int} (h : a < 2147483648) : kbpsOf a ≤ 2147483 := by
  have h2 : kbpsOf a ≤ kbpsOf 2147483647 := kbpsOf_le_kbpsOf (by omega)
  have h3 : kbpsOf 2147483647 = 2147483 := rfl
  omega

theorem sumMaxKbps_le (streams : List VideoStream)
    (h : ∀ s ∈ streams, kbpsOf s.max_bitrate_bps ≤ 2147483) :
    sumMaxKbps streams ≤ 2147483 * streams.length := by
  induction streams with
  | nil => simp [sumMaxKbps]
  | cons t r ih =>
    have ht := h t (List.mem_cons_self t r)
    have hr := ih fun s hs => h s (List.mem_cons_of_mem t hs)
    have e : sumMaxKbps (t :: r) = kbpsOf t.max_bitrate_bps + sumMaxKbps r := by
      simp [sumMaxKbps]
    rw [e, List.length_cons]
    have : 2147483 * (r.length + 1) = 2147483 * r.length + 2147483 := by ring
    omega

theorem sumMaxKbps_eq_zero (streams : List VideoStream) (h : sumMaxKbps streams = 0) :
    ∀ s ∈ streams, kbpsOf s.max_bitrate_bps = 0 := by
  intro s hs
  unfold sumMaxKbps at h
  have := List.sum_eq_zero_iff.mp h
  exact this (kbpsOf s.max_bitrate_bps) (List.mem_map_of_mem _ hs)

theorem kbpsOf_mem_le_sum (streams : List VideoStream) (s : VideoStream)
    (hs : s ∈ streams) : kbpsOf s.max_bitrate_bps ≤ sumMaxKbps streams := by
  unfold sumMaxKbps
  exact List.single_le_sum (fun x _ => Nat.zero_le x) _ (List.mem_map_of_mem _ hs)

theorem vcCore_maxBitrate_eq (config : VideoEncoderConfig) (streams : List VideoStream)
    (ct : VideoCodecType) (hlt : sumMaxKbps streams < 4294967296) :
    (vcCore config streams ct).maxBitrate =
      if sumMaxKbps streams < kEncoderMinBitrateKbps then kEncoderMinBitrateKbps
      else sumMaxKbps streams := by
  have hfold : (applyStreamsFrom (vcLoopInit config streams ct) 0 streams).maxBitrate =
      sumMaxKbps streams := by
    rw [applyStreamsFrom_maxBitrate streams _ 0 (by rw [vcLoopInit_maxBitrate]; omega),
      vcLoopInit_maxBitrate]
    omega
  have hfr : (applyStreamsFrom (vcLoopInit config streams ct) 0 streams).maxFramerate = 0 := by
    rw [applyStreamsFrom_maxFramerate, vcLoopInit_maxFramerate]
  unfold vcCore
  dsimp only
  by_cases h0 : (applyStreamsFrom (vcLoopInit config streams ct) 0 streams).maxBitrate = 0
  · rw [if_pos h0, hfr]
    have hz : sumMaxKbps streams = 0 := by rw [← hfold, h0]
    simp only [Nat.mul_zero, Nat.zero_mod, Nat.zero_div, hz]
    rw [if_pos (by unfold kEncoderMinBitrateKbps; omega),
      if_pos (by unfold kEncoderMinBitrateKbps; omega)]
  · rw [if_neg h0, hfold]
    split
    · rfl
    · exact hfold

/-- C1 (amended): for every well-formed input, the aggregate minimum bitrate is
at most every per-stream minimum bitrate (kbps), the aggregate maximum bitrate
is at least the aggregate minimum bitrate, and the aggregate minimum bitrate is
at least the 30 kbps floor provided every stream's minimum bitrate is at least
30 kbps and below the 16-bit kbps range used by the folding cast.  The
unconditional 30 kbps floor of the original claim is refuted by
C1_counterexample_min_below_floor: the floor applied before the per-stream loop
is overridden by the loop's running minimum. -/
theorem C1_aggregate_bitrate_bounds (ext : Externals) (config : VideoEncoderConfig)
    (streams : List VideoStream) (ct : VideoCodecType) (nk : Bool)
    (hwf : WellFormed config streams) :
    (∀ s ∈ streams,
      (VideoEncoderConfigToVideoCodec ext config streams ct nk).minBitrate ≤
        kbpsOf s.min_bitrate_bps) ∧
    (VideoEncoderConfigToVideoCodec ext config streams ct nk).minBitrate ≤
      (VideoEncoderConfigToVideoCodec ext config streams ct nk).maxBitrate ∧
    ((∀ s ∈ streams, kEncoderMinBitrateKbps ≤ kbpsOf s.min_bitrate_bps ∧
        kbpsOf s.min_bitrate_bps < 65536) →
      kEncoderMinBitrateKbps ≤
        (VideoEncoderConfigToVideoCodec ext config streams ct nk).minBitrate) := by
  obtain ⟨hne, hcap, -, hok, -⟩ := hwf
  have hmem : ∀ s ∈ streams,
      (VideoEncoderConfigToVideoCodec ext config streams ct nk).minBitrate ≤
        kbpsOf s.min_bitrate_bps := by
    intro s hs
    rw [translator_minBitrate, vcCore_minBitrate]
    exact applyStreamsFrom_minBitrate_le_mem streams _ 0 s hs
  have hsumlt : sumMaxKbps streams < 4294967296 := by
    have h1 : sumMaxKbps streams ≤ 2147483 * streams.length := by
      refine sumMaxKbps_le streams fun s hs => ?_
      obtain ⟨-, -, -, -, -, -, -, -, -, hmx, -, -⟩ := hok s hs
      exact kbpsOf_le_2147483 hmx
    unfold kMaxSimulcastStreams at hcap
    have h2 : 2147483 * streams.length ≤ 2147483 * 4 :=
      Nat.mul_le_mul_left 2147483 hcap
    omega
  have hmaxeq := vcCore_maxBitrate_eq config streams ct hsumlt
  refine ⟨hmem, ?_, ?_⟩
  · cases streams with
    | nil => exact absurd rfl hne
    | cons s0 r =>
      have h1 := hmem s0 (List.mem_cons_self s0 r)
      obtain ⟨-, -, -, -, -, -, -, hmt, htm, -, -, -⟩ := hok s0 (List.mem_cons_self s0 r)
      have h2 : kbpsOf s0.min_bitrate_bps ≤ kbpsOf s0.max_bitrate_bps :=
        kbpsOf_le_kbpsOf (le_trans hmt htm)
      have h3 : kbpsOf s0.max_bitrate_bps ≤ sumMaxKbps (s0 :: r) :=
        kbpsOf_mem_le_sum (s0 :: r) s0 (List.mem_cons_self s0 r)
      rw [translator_maxBitrate, hmaxeq]
      unfold kEncoderMinBitrateKbps
      split
      · omega
      · omega
  · intro hge
    rw [translator_minBitrate, vcCore_minBitrate]
    have hinit : kEncoderMinBitrateKbps ≤ (vcLoopInit config streams ct).minBitrate ∧
        (vcLoopInit config streams ct).minBitrate < 65536 := by
      rw [vcLoopInit_minBitrate]
      cases streams with
      | nil => exact absurd rfl hne
      | cons s0 r =>
        have := hge s0 (List.mem_cons_self s0 r)
        have e : (s0 :: r).headD defaultVideoStream = s0 := rfl
        rw [e]
        split
        · exact ⟨Nat.le_refl _, by unfold kEncoderMinBitrateKbps; omega⟩
        · exact ⟨by omega, this.2⟩
    exact (applyStreamsFrom_minBitrate_ge streams _ 0 hinit.1 hinit.2 hge).1

/-- C1 witness: the amended claim instantiated at a concrete well-formed
single-stream input. -/
theorem C1_aggregate_bitrate_bounds_witness :
    (∀ s ∈ [mkStreamW 100000 150000 200000],
      (VideoEncoderConfigToVideoCodec extW cfgW [mkStreamW 100000 150000 200000]
        .VP8 false).minBitrate ≤ kbpsOf s.min_bitrate_bps) ∧
    (VideoEncoderConfigToVideoCodec extW cfgW [mkStreamW 100000 150000 200000]
      .VP8 false).minBitrate ≤
      (VideoEncoderConfigToVideoCodec extW cfgW [mkStreamW 100000 150000 200000]
        .VP8 false).maxBitrate ∧
    ((∀ s ∈ [mkStreamW 100000 150000 200000],
        kEncoderMinBitrateKbps ≤ kbpsOf s.min_bitrate_bps ∧
        kbpsOf s.min_bitrate_bps < 65536) →
      kEncoderMinBitrateKbps ≤
        (VideoEncoderConfigToVideoCodec extW cfgW [mkStreamW 100000 150000 200000]
          .VP8 false).minBitrate) :=
  C1_aggregate_bitrate_bounds extW cfgW [mkStreamW 100000 150000 200000] .VP8 false
    (by decide)

/-- C1 counterexample: a well-formed single-stream input whose minimum bitrate
is 10 kbps yields an aggregate minimum bitrate below the 30 kbps floor, so the
claim's unconditional conjunct aggregate minimum >= 30 kbps is false: the floor
applied before the per-stream loop is undone by the loop's running minimum. -/
theorem C1_counterexample_min_below_floor : WellFormed cfgW [streamLowMin] ∧
    ¬(kEncoderMinBitrateKbps ≤
      (VideoEncoderConfigToVideoCodec extW cfgW [streamLowMin] .VP8 false).minBitrate) := by
  decide

/-- C2: the code contradicts the claimed one-bit-per-pixel default cap.  On the
spec's scenario (single 1280x720 stream at 30 fps with all bitrate bounds
zero, a well-formed input), the derived cap reads the aggregate max-frame-rate
field before it is assigned (still zero), so the aggregate maximum bitrate is
the 30 kbps floor and not floor(1280*720*30/1000) = 27648 kbps. -/
theorem C2_default_cap_reads_zero_framerate : WellFormed cfgW [streamZeroMax] ∧
    (VideoEncoderConfigToVideoCodec extW cfgW [streamZeroMax] .VP8 false).maxBitrate =
      kEncoderMinBitrateKbps ∧
    (VideoEncoderConfigToVideoCodec extW cfgW [streamZeroMax] .VP8 false).maxBitrate ≠
      1280 * 720 * 30 / 1000 := by
  decide

/-- C3: for a well-formed VP8 input whose resolved temporal-layer count (the
last stream's explicit count, else the defaulted or explicitly set value) is
within [1, kMaxTemporalStreams], the output carries exactly that count; when
nack is enabled and the count is 1, resilience is set off; otherwise the
resilience field keeps its value from defaulting or explicit settings. -/
theorem C3_vp8_temporal_layers_resilience (ext : Externals)
    (config : VideoEncoderConfig) (streams : List VideoStream) (nk : Bool)
    (hwf : WellFormed config streams)
    (htl : 1 ≤ resolvedVp8TemporalLayers ext config streams ∧
      resolvedVp8TemporalLayers ext config streams ≤ kMaxTemporalStreams) :
    (VideoEncoderConfigToVideoCodec ext config streams .VP8 nk).vp8.numberOfTemporalLayers =
      resolvedVp8TemporalLayers ext config streams ∧
    1 ≤ (VideoEncoderConfigToVideoCodec ext config streams
      .VP8 nk).vp8.numberOfTemporalLayers ∧
    (VideoEncoderConfigToVideoCodec ext config streams
      .VP8 nk).vp8.numberOfTemporalLayers ≤ kMaxTemporalStreams ∧
    ((nk = true ∧ resolvedVp8TemporalLayers ext config streams = 1) →
      (VideoEncoderConfigToVideoCodec ext config streams .VP8 nk).vp8.resilience =
        .kResilienceOff) ∧
    (¬(nk = true ∧ resolvedVp8TemporalLayers ext config streams = 1) →
      (VideoEncoderConfigToVideoCodec ext config streams .VP8 nk).vp8.resilience =
        (vp8Prior ext config streams).resilience) := by
  have main :
      (VideoEncoderConfigToVideoCodec ext config streams
        .VP8 nk).vp8.numberOfTemporalLayers =
        resolvedVp8TemporalLayers ext config streams ∧
      ((nk = true ∧ resolvedVp8TemporalLayers ext config streams = 1) →
        (VideoEncoderConfigToVideoCodec ext config streams .VP8 nk).vp8.resilience =
          .kResilienceOff) ∧
      (¬(nk = true ∧ resolvedVp8TemporalLayers ext config streams = 1) →
        (VideoEncoderConfigToVideoCodec ext config streams .VP8 nk).vp8.resilience =
          (vp8Prior ext config streams).resilience) := by
    unfold VideoEncoderConfigToVideoCodec
    dsimp only
    rw [vcBase_codecType]
    dsimp only
    cases hs : config.encoder_specific_settings with
    | none =>
      simp only [resolvedVp8TemporalLayers, vp8Prior, hs, Option.isNone_none,
        eq_self_iff_true, if_true]
      split
      next h => exact ⟨rfl, fun _ => rfl, fun hn => absurd h hn⟩
      next h => exact ⟨rfl, fun hcontr => absurd hcontr h, fun _ => rfl⟩
    | some fill =>
      simp only [resolvedVp8TemporalLayers, vp8Prior, hs, Option.isNone_some,
        Bool.false_eq_true, if_false]
      split
      next h => exact ⟨rfl, fun _ => rfl, fun hn => absurd h hn⟩
      next h => exact ⟨rfl, fun hcontr => absurd hcontr h, fun _ => rfl⟩
  exact ⟨main.1, by rw [main.1]; exact htl.1, by rw [main.1]; exact htl.2,
    main.2.1, main.2.2⟩

/-- C3 witness: a concrete VP8 input with nack enabled and an explicit single
temporal layer on the last stream; the resolved count is 1 and resilience is
switched off. -/
theorem C3_vp8_temporal_layers_resilience_witness :
    (VideoEncoderConfigToVideoCodec extW cfgW [streamTL1]
      .VP8 true).vp8.numberOfTemporalLayers =
      resolvedVp8TemporalLayers extW cfgW [streamTL1] ∧
    1 ≤ (VideoEncoderConfigToVideoCodec extW cfgW [streamTL1]
      .VP8 true).vp8.numberOfTemporalLayers ∧
    (VideoEncoderConfigToVideoCodec extW cfgW [streamTL1]
      .VP8 true).vp8.numberOfTemporalLayers ≤ kMaxTemporalStreams ∧
    ((true = true ∧ resolvedVp8TemporalLayers extW cfgW [streamTL1] = 1) →
      (VideoEncoderConfigToVideoCodec extW cfgW [streamTL1] .VP8 true).vp8.resilience =
        .kResilienceOff) ∧
    (¬(true = true ∧ resolvedVp8TemporalLayers extW cfgW [streamTL1] = 1) →
      (VideoEncoderConfigToVideoCodec extW cfgW [streamTL1] .VP8 true).vp8.resilience =
        (vp8Prior extW cfgW [streamTL1]).resilience) :=
  C3_vp8_temporal_layers_resilience extW cfgW [streamTL1] true (by decide) (by decide)

/-- C4: for a well-formed VP9 input that is not in the screen-share-with-
explicit-settings branch and supplies no explicit spatial layers, the output's
VP9 spatial-layer count equals the length of the list returned by the external
layer-geometry generator (called with aggregate width and height and the
already-resolved spatial and temporal counts), each output slot equals the
generated descriptor at its index, and the final VP9 temporal-layer count
equals the last generated descriptor's temporal-layer count, under the
generator-output preconditions enforced by the source's assertions. -/
theorem C4_vp9_generated_spatial_layers (ext : Externals)
    (config : VideoEncoderConfig) (streams : List VideoStream) (nk : Bool)
    (hwf : WellFormed config streams)
    (hmode : ¬(config.content_type = .kScreen ∧
      config.encoder_specific_settings.isSome))
    (hempty : config.spatial_layers = [])
    (hlen : 1 ≤ (vp9GeneratedLayers ext config streams).length ∧
      (vp9GeneratedLayers ext config streams).length ≤ kMaxSpatialLayers)
    (hltl : 1 ≤ ((vp9GeneratedLayers ext config streams).getLastD
        zeroSimulcastStream).numberOfTemporalLayers ∧
      ((vp9GeneratedLayers ext config streams).getLastD
        zeroSimulcastStream).numberOfTemporalLayers ≤ kMaxTemporalStreams) :
    (VideoEncoderConfigToVideoCodec ext config streams
      .VP9 nk).vp9.numberOfSpatialLayers =
      (vp9GeneratedLayers ext config streams).length ∧
    (∀ i, i < (vp9GeneratedLayers ext config streams).length →
      (VideoEncoderConfigToVideoCodec ext config streams .VP9 nk).spatialLayers[i]? =
        (vp9GeneratedLayers ext config streams)[i]?) ∧
    (VideoEncoderConfigToVideoCodec ext config streams
      .VP9 nk).vp9.numberOfTemporalLayers =
      ((vp9GeneratedLayers ext config streams).getLastD
        zeroSimulcastStream).numberOfTemporalLayers := by
  have hmod : (vcBase config streams .VP9).mode = .kScreensharing →
      config.content_type = .kScreen := by
    rw [vcBase_mode, vcLoopInit_mode]
    cases config.content_type with
    | kRealtimeVideo => intro h; cases h
    | kScreen => intro _; rfl
  have hdst : (vcBase config streams .VP9).spatialLayers.length = kMaxSpatialLayers := by
    rw [vcBase_spatialLayers, List.length_replicate]
  have hslots : ∀ i, i < (vp9GeneratedLayers ext config streams).length →
      (copyLayers (vcBase config streams .VP9).spatialLayers 0
        (vp9GeneratedLayers ext config streams))[i]? =
        (vp9GeneratedLayers ext config streams)[i]? := by
    intro i hi
    have hb : 0 + (vp9GeneratedLayers ext config streams).length ≤
        (vcBase config streams .VP9).spatialLayers.length := by
      rw [hdst]; omega
    have := copyLayers_getElem? (vp9GeneratedLayers ext config streams)
      (vcBase config streams .VP9).spatialLayers 0 hb i hi
    rwa [Nat.zero_add] at this
  have hmodeq : ((vp9GeneratedLayers ext config streams).length % 256 =
      (vp9GeneratedLayers ext config streams).length) := by
    have := hlen.2
    unfold kMaxSpatialLayers at this
    omega
  have htleq : ((vp9GeneratedLayers ext config streams).getLastD
      zeroSimulcastStream).numberOfTemporalLayers % 256 =
      ((vp9GeneratedLayers ext config streams).getLastD
        zeroSimulcastStream).numberOfTemporalLayers := by
    have := hltl.2
    unfold kMaxTemporalStreams at this
    omega
  unfold VideoEncoderConfigToVideoCodec
  dsimp only
  rw [vcBase_codecType]
  dsimp only
  cases hs : config.encoder_specific_settings with
  | none =>
    simp only [vp9GeneratedLayers, vp9Prior, resolvedVp9TemporalLayersPre, hs,
      Option.isNone_none, eq_self_iff_true, if_true, Option.isSome_none,
      Bool.false_eq_true, and_false, if_false, hempty, ne_eq,
      not_true] at hslots hmodeq htleq ⊢
    split
    next h => exact ⟨hmodeq, hslots, htleq⟩
    next h => exact ⟨hmodeq, hslots, htleq⟩
  | some fill =>
    have hnm2 : ¬((vcBase config streams .VP9).mode = VideoCodecMode.kScreensharing) :=
      fun h => hmode ⟨hmod h, by rw [hs]; rfl⟩
    simp only [vp9GeneratedLayers, vp9Prior, resolvedVp9TemporalLayersPre, hs,
      Option.isNone_some, Option.isSome_some, Bool.false_eq_true, if_false, hempty,
      ne_eq, not_true, eq_self_iff_true, and_true] at hslots hmodeq htleq ⊢
    rw [if_neg hnm2]
    split
    next h => exact ⟨hmodeq, hslots, htleq⟩
    next h => exact ⟨hmodeq, hslots, htleq⟩

/-- C4 witness: a concrete realtime VP9 input with no explicit layers; the
external generator of extW returns two layers. -/
theorem C4_vp9_generated_spatial_layers_witness :
    (VideoEncoderConfigToVideoCodec extW cfgW [mkStreamW 100000 150000 200000]
      .VP9 false).vp9.numberOfSpatialLayers =
      (vp9GeneratedLayers extW cfgW [mkStreamW 100000 150000 200000]).length ∧
    (∀ i, i < (vp9GeneratedLayers extW cfgW [mkStreamW 100000 150000 200000]).length →
      (VideoEncoderConfigToVideoCodec extW cfgW [mkStreamW 100000 150000 200000]
        .VP9 false).spatialLayers[i]? =
        (vp9GeneratedLayers extW cfgW [mkStreamW 100000 150000 200000])[i]?) ∧
    (VideoEncoderConfigToVideoCodec extW cfgW [mkStreamW 100000 150000 200000]
      .VP9 false).vp9.numberOfTemporalLayers =
      ((vp9GeneratedLayers extW cfgW [mkStreamW 100000 150000 200000]).getLastD
        zeroSimulcastStream).numberOfTemporalLayers :=
  C4_vp9_generated_spatial_layers extW cfgW [mkStreamW 100000 150000 200000] false
    (by decide) (by decide) (by decide) (by decide) (by decide)

/-- C5: when the resolved codec type is multiplex, SetupCodec succeeds and
returns the record of the same call with the codec type forced to VP9, with
only the codec-type tag overwritten to multiplex (and the same allocator
choice, constructed from the VP9-tagged record). -/
theorem C5_multiplex_refines_vp9 (ext : Externals) (config : VideoEncoderConfig)
    (settings : EncoderSettings) (streams : List VideoStream) (nack : Bool)
    (hmux : resolveCodecType ext config settings = .Multiplex) :
    ∃ c a c2 a2,
      SetupCodec ext config settings streams nack = some (c, a) ∧
      SetupCodec ext { config with codec_type := .VP9 } settings streams nack =
        some (c2, a2) ∧
      c.codecType = .Multiplex ∧
      c = { c2 with codecType := .Multiplex } := by
  have hres : resolveCodecType ext { config with codec_type := VideoCodecType.VP9 }
      settings = .VP9 := by
    unfold resolveCodecType
    simp
  have hinner : SetupCodecF ext 1 { config with codec_type := VideoCodecType.VP9 }
      settings streams nack =
      some (VideoEncoderConfigToVideoCodec ext
          { config with codec_type := VideoCodecType.VP9 } streams .VP9 nack,
        CreateBitrateAllocator (VideoEncoderConfigToVideoCodec ext
          { config with codec_type := VideoCodecType.VP9 } streams .VP9 nack)) := by
    rw [show SetupCodecF ext 1 { config with codec_type := VideoCodecType.VP9 }
        settings streams nack =
        (let codec_type := resolveCodecType ext
           { config with codec_type := VideoCodecType.VP9 } settings
         if codec_type = .Multiplex then
           match SetupCodecF ext 0
               { { config with codec_type := VideoCodecType.VP9 } with
                 codec_type := VideoCodecType.VP9 } settings streams nack with
           | none => none
           | some (codec, bitrate_allocator) =>
             some ({ codec with codecType := .Multiplex }, bitrate_allocator)
         else
           let codec := VideoEncoderConfigToVideoCodec ext
             { config with codec_type := VideoCodecType.VP9 } streams codec_type nack
           some (codec, CreateBitrateAllocator codec)) from rfl]
    dsimp only
    rw [hres]
    rw [if_neg (by decide : ¬(VideoCodecType.VP9 = VideoCodecType.Multiplex))]
  have houter : SetupCodec ext config settings streams nack =
      some ({ VideoEncoderConfigToVideoCodec ext
          { config with codec_type := VideoCodecType.VP9 } streams .VP9 nack with
          codecType := .Multiplex },
        CreateBitrateAllocator (VideoEncoderConfigToVideoCodec ext
          { config with codec_type := VideoCodecType.VP9 } streams .VP9 nack)) := by
    unfold SetupCodec
    rw [show SetupCodecF ext 2 config settings streams nack =
        (let codec_type := resolveCodecType ext config settings
         if codec_type = .Multiplex then
           match SetupCodecF ext 1 { config with codec_type := VideoCodecType.VP9 }
               settings streams nack with
           | none => none
           | some (codec, bitrate_allocator) =>
             some ({ codec with codecType := .Multiplex }, bitrate_allocator)
         else
           let codec := VideoEncoderConfigToVideoCodec ext config streams codec_type nack
           some (codec, CreateBitrateAllocator codec)) from rfl]
    dsimp only
    rw [hmux]
    rw [if_pos rfl, hinner]
  have hdirect : SetupCodec ext { config with codec_type := .VP9 } settings streams nack =
      some (VideoEncoderConfigToVideoCodec ext
          { config with codec_type := VideoCodecType.VP9 } streams .VP9 nack,
        CreateBitrateAllocator (VideoEncoderConfigToVideoCodec ext
          { config with codec_type := VideoCodecType.VP9 } streams .VP9 nack)) := by
    unfold SetupCodec
    rw [show SetupCodecF ext 2 { config with codec_type := VideoCodecType.VP9 }
        settings streams nack =
        (let codec_type := resolveCodecType ext
           { config with codec_type := VideoCodecType.VP9 } settings
         if codec_type = .Multiplex then
           match SetupCodecF ext 1
               { { config with codec_type := VideoCodecType.VP9 } with
                 codec_type := VideoCodecType.VP9 } settings streams nack with
           | none => none
           | some (codec, bitrate_allocator) =>
             some ({ codec with codecType := .Multiplex }, bitrate_allocator)
         else
           let codec := VideoEncoderConfigToVideoCodec ext
             { config with codec_type := VideoCodecType.VP9 } streams codec_type nack
           some (codec, CreateBitrateAllocator codec)) from rfl]
    dsimp only
    rw [hres]
    rw [if_neg (by decide : ¬(VideoCodecType.VP9 = VideoCodecType.Multiplex))]
  exact ⟨_, _, _, _, houter, hdirect, rfl, rfl⟩

/-- C5 witness: the multiplex refinement instantiated at a concrete
single-stream configuration. -/
theorem C5_multiplex_refines_vp9_witness :
    ∃ c a c2 a2,
      SetupCodec extW { cfgW with codec_type := .Multiplex } settingsW
        [mkStreamW 100000 150000 200000] false = some (c, a) ∧
      SetupCodec extW { { cfgW with codec_type := .Multiplex } with codec_type := .VP9 }
        settingsW [mkStreamW 100000 150000 200000] false = some (c2, a2) ∧
      c.codecType = .Multiplex ∧
      c = { c2 with codecType := .Multiplex } :=
  C5_multiplex_refines_vp9 extW { cfgW with codec_type := .Multiplex } settingsW
    [mkStreamW 100000 150000 200000] false (by decide)

/-- C6: for every well-formed input, the aggregate width and height equal the
maximum width and height across the input streams, and the aggregate max
quantizer equals the maximum per-stream max quantizer. -/
theorem C6_aggregate_maxima (ext : Externals) (config : VideoEncoderConfig)
    (streams : List VideoStream) (ct : VideoCodecType) (nk : Bool)
    (hwf : WellFormed config streams) :
    (VideoEncoderConfigToVideoCodec ext config streams ct nk).width =
      maxStreamWidth streams ∧
    (VideoEncoderConfigToVideoCodec ext config streams ct nk).height =
      maxStreamHeight streams ∧
    (VideoEncoderConfigToVideoCodec ext config streams ct nk).qpMax =
      maxStreamQp streams := by
  obtain ⟨-, -, -, hok, -⟩ := hwf
  refine ⟨?_, ?_, ?_⟩
  · rw [translator_width, vcCore_width,
      applyStreamsFrom_width_bounded streams _ 0 (fun s hs => (hok s hs).2.1),
      vcLoopInit_width]
    rfl
  · rw [translator_height, vcCore_height,
      applyStreamsFrom_height_bounded streams _ 0 (fun s hs => (hok s hs).2.2.2.1),
      vcLoopInit_height]
    rfl
  · rw [translator_qpMax, vcCore_qpMax, applyStreamsFrom_qpMax streams _ 0,
      vcLoopInit_qpMax]
    rfl

/-- C6 witness: the aggregate maxima instantiated at a concrete two-stream
input with distinct dimensions and quantizer caps. -/
theorem C6_aggregate_maxima_witness :
    (VideoEncoderConfigToVideoCodec extW cfgW [mkStreamW 100000 150000 200000, streamBig]
      .VP8 false).width = maxStreamWidth [mkStreamW 100000 150000 200000, streamBig] ∧
    (VideoEncoderConfigToVideoCodec extW cfgW [mkStreamW 100000 150000 200000, streamBig]
      .VP8 false).height = maxStreamHeight [mkStreamW 100000 150000 200000, streamBig] ∧
    (VideoEncoderConfigToVideoCodec extW cfgW [mkStreamW 100000 150000 200000, streamBig]
      .VP8 false).qpMax = maxStreamQp [mkStreamW 100000 150000 200000, streamBig] :=
  C6_aggregate_maxima extW cfgW [mkStreamW 100000 150000 200000, streamBig] .VP8 false
    (by decide)

/-- C7: the allocator factory is a total function of the normalized
configuration that returns the simulcast strategy exactly for VP8, the SVC
strategy exactly for VP9, and the default strategy exactly for every other
codec type. -/
theorem C7_allocator_selection (codec : VideoCodec) :
    (CreateBitrateAllocator codec = .simulcastRateAllocator codec ↔
      codec.codecType = .VP8) ∧
    (CreateBitrateAllocator codec = .svcRateAllocator codec ↔
      codec.codecType = .VP9) ∧
    (CreateBitrateAllocator codec = .defaultVideoBitrateAllocator codec ↔
      (codec.codecType ≠ .VP8 ∧ codec.codecType ≠ .VP9)) := by
  unfold CreateBitrateAllocator
  rcases h : codec.codecType <;> simp [h]

/-- C8: the translator is a pure function of its four inputs: two invocations
on identical inputs yield identical normalized configurations. -/
theorem C8_translator_deterministic (ext : Externals) (c1 c2 : VideoEncoderConfig)
    (s1 s2 : List VideoStream) (t1 t2 : VideoCodecType) (n1 n2 : Bool)
    (h : (c1, s1, t1, n1) = (c2, s2, t2, n2)) :
    VideoEncoderConfigToVideoCodec ext c1 s1 t1 n1 =
      VideoEncoderConfigToVideoCodec ext c2 s2 t2 n2 :=
  congrArg (fun p => VideoEncoderConfigToVideoCodec ext p.1 p.2.1 p.2.2.1 p.2.2.2) h

/-- C8 witness: determinism instantiated at a concrete input. -/
theorem C8_translator_deterministic_witness :
    VideoEncoderConfigToVideoCodec extW cfgW [mkStreamW 100000 150000 200000] .VP8 false =
      VideoEncoderConfigToVideoCodec extW cfgW [mkStreamW 100000 150000 200000]
        .VP8 false :=
  C8_translator_deterministic extW cfgW cfgW [mkStreamW 100000 150000 200000]
    [mkStreamW 100000 150000 200000] .VP8 .VP8 false false rfl

/-- C9: SetupCodec never reports failure: the only failure branch needs the
one-level multiplex recursion to fail, and that recursive call runs with the
codec type forced to VP9, which resolves away from multiplex and succeeds
unconditionally. -/
theorem C9_setup_codec_total (ext : Externals) (config : VideoEncoderConfig)
    (settings : EncoderSettings) (streams : List VideoStream) (nack : Bool) :
    (SetupCodec ext config settings streams nack).isSome = true := by
  unfold SetupCodec
  rw [show SetupCodecF ext 2 config settings streams nack =
      (let codec_type := resolveCodecType ext config settings
       if codec_type = .Multiplex then
         match SetupCodecF ext 1 { config with codec_type := VideoCodecType.VP9 }
             settings streams nack with
         | none => none
         | some (codec, bitrate_allocator) =>
           some ({ codec with codecType := .Multiplex }, bitrate_allocator)
       else
         let codec := VideoEncoderConfigToVideoCodec ext config streams codec_type nack
         some (codec, CreateBitrateAllocator codec)) from rfl]
  dsimp only
  have hres : resolveCodecType ext { config with codec_type := VideoCodecType.VP9 }
      settings = .VP9 := by
    unfold resolveCodecType
    simp
  by_cases h : resolveCodecType ext config settings = .Multiplex
  · rw [if_pos h]
    rw [show SetupCodecF ext 1 { config with codec_type := VideoCodecType.VP9 }
        settings streams nack =
        (let codec_type := resolveCodecType ext
           { config with codec_type := VideoCodecType.VP9 } settings
         if codec_type = .Multiplex then
           match SetupCodecF ext 0
               { { config with codec_type := VideoCodecType.VP9 } with
                 codec_type := VideoCodecType.VP9 } settings streams nack with
           | none => none
           | some (codec, bitrate_allocator) =>
             some ({ codec with codecType := .Multiplex }, bitrate_allocator)
         else
           let codec := VideoEncoderConfigToVideoCodec ext
             { config with codec_type := VideoCodecType.VP9 } streams codec_type nack
           some (codec, CreateBitrateAllocator codec)) from rfl]
    dsimp only
    rw [hres]
    rw [if_neg (by decide : ¬(VideoCodecType.VP9 = VideoCodecType.Multiplex))]
    rfl
  · rw [if_neg h]
    rfl

/-- C10: at the point where the default bitrate cap is derived the aggregate
max-frame-rate field is still zero (it is assigned from stream 0 only
afterwards), so for every well-formed input whose per-stream maximum bitrates
all convert to 0 kbps the aggregate maximum bitrate is exactly the 30 kbps
floor, independent of widths, heights and frame rates. -/
theorem C10_zero_max_bitrate_floor (ext : Externals) (config : VideoEncoderConfig)
    (streams : List VideoStream) (ct : VideoCodecType) (nk : Bool)
    (hwf : WellFormed config streams)
    (hz : ∀ s ∈ streams, kbpsOf s.max_bitrate_bps = 0) :
    (VideoEncoderConfigToVideoCodec ext config streams ct nk).maxBitrate =
      kEncoderMinBitrateKbps := by
  have hsum : sumMaxKbps streams = 0 := by
    unfold sumMaxKbps
    refine List.sum_eq_zero ?_
    intro x hx
    obtain ⟨s, hs, rfl⟩ := List.mem_map.mp hx
    exact hz s hs
  rw [translator_maxBitrate, vcCore_maxBitrate_eq config streams ct (by omega), hsum]
  rw [if_pos (by unfold kEncoderMinBitrateKbps; omega)]

/-- C10 witness: a concrete 320x180 at 15 fps zero-maximum stream yields an
aggregate maximum bitrate of exactly 30 kbps. -/
theorem C10_zero_max_bitrate_floor_witness :
    (VideoEncoderConfigToVideoCodec extW cfgW [streamZeroMaxSmall] .VP8 false).maxBitrate =
      kEncoderMinBitrateKbps :=
  C10_zero_max_bitrate_floor extW cfgW [streamZeroMaxSmall] .VP8 false (by decide)
    (by decide)
